import Mathlib

/-!
Verification of the deployment-manager core
(`Samples/Module03-Projects-and-Workflows/deployment-manager/main.py`).

The Python program keeps its state in insertion-ordered dictionaries and
plain dataclasses.  We embed dictionaries as association lists
(`List (String × β)`) with Python-dict update semantics (assignment to an
existing key replaces the value in place, a new key is appended), numbers
as `Int`/`Nat`/`ℚ` (the Python metrics are machine floats; all constants
involved are small decimals, embedded as exact rationals), and the
simulated wall clock as an abstract `Nat` tick.  Operations that can raise
in Python return `Option`.
-/

set_option autoImplicit false

namespace DeploymentManager

/-- First value bound to `k`, like Python `d.get(k)`. -/
def alookup {β : Type} : List (String × β) → String → Option β
  | [], _ => none
  | (k, v) :: rest, key => if k = key then some v else alookup rest key

/-- Python `d[k] = v`: replace the value of an existing key in place,
append the binding otherwise. -/
def aset {β : Type} : List (String × β) → String → β → List (String × β)
  | [], key, v => [(key, v)]
  | (k, w) :: rest, key, v =>
    if k = key then (k, v) :: rest else (k, w) :: aset rest key v

/-! ## TrafficRouter (main.py lines 308-367)

`routing_rules : model name → traffic split (variant → int weight)` and
`request_counts : model name → (variant → request count)`. -/

/-- The traffic split of one service, a Python `Dict[str, int]`. -/
abbrev TrafficSplit := List (String × Int)

structure TrafficRouter where
  routing_rules : List (String × TrafficSplit)
  request_counts : List (String × List (String × Nat))
deriving DecidableEq

def TrafficRouter.empty : TrafficRouter := ⟨[], []⟩

/-- Embeds `update_traffic_split` (lines 316-328): unconditionally store the split,
then initialize a zero counter for each split variant that has none yet.
There is no validation of the weights anywhere in the source. -/
def updateTrafficSplit (r : TrafficRouter) (model : String) (split : TrafficSplit) :
    TrafficRouter :=
  let rules := aset r.routing_rules model split
  let counts0 := (alookup r.request_counts model).getD []
  let counts1 := split.foldl
    (fun acc p =>
      match alookup acc p.1 with
      | some _ => acc
      | none => acc ++ [(p.1, 0)])
    counts0
  { routing_rules := rules, request_counts := aset r.request_counts model counts1 }

/-- The cumulative-weight scan of `route_request` (lines 340-346):
return the first variant whose running cumulative weight reaches the draw. -/
def routeScan : TrafficSplit → Int → Int → Option String
  | [], _, _ => none
  | (variant, weight) :: rest, cumulative, randomValue =>
    if randomValue ≤ cumulative + weight then some variant
    else routeScan rest (cumulative + weight) randomValue

/-- Embeds `route_request` (lines 330-349), with the `random.randint(1, 100)` draw
passed in explicitly.  Returns `none` exactly where Python raises
(`KeyError` on a missing request counter); otherwise the chosen variant and
the updated router.  An absent or empty (falsy) split yields `"default"`;
if the scan exhausts the split, the first variant is returned with no
counter increment. -/
def routeRequest (r : TrafficRouter) (model : String) (randomValue : Int) :
    Option (String × TrafficRouter) :=
  match alookup r.routing_rules model with
  | none => some ("default", r)
  | some [] => some ("default", r)
  | some (first :: rest) =>
    match routeScan (first :: rest) 0 randomValue with
    | some variant =>
      match alookup r.request_counts model with
      | none => none
      | some counts =>
        match alookup counts variant with
        | none => none
        | some c =>
          let counts' := aset r.request_counts model (aset counts variant (c + 1))
          some (variant, { r with request_counts := counts' })
    | none => some (first.1, r)

/-- Total request count for a model, the `total_requests` of
`get_traffic_stats` (line 356): sum of the per-variant counters. -/
def totalRequests (r : TrafficRouter) (model : String) : Nat :=
  (((alookup r.request_counts model).getD []).map Prod.snd).sum

/-! ## Blue-green deployment manager (main.py lines 370-628) -/

inductive DeploymentSlot
  | blue
  | green
deriving DecidableEq

def DeploymentSlot.value : DeploymentSlot → String
  | .blue => "blue"
  | .green => "green"

inductive DeploymentStatus
  | inactive
  | staging
  | active
  | transitioning
  | failed
deriving DecidableEq

/-- The `ModelDeployment` dataclass (lines 66-93).  `created_at` is the
abstract timestamp tick; the optional health-check timestamp and metrics
snapshot play no role in any claim and are elided. -/
structure ModelDeployment where
  deployment_id : String
  model_name : String
  model_version : String
  slot : DeploymentSlot
  status : DeploymentStatus
  endpoint_url : String
  created_at : Nat
  health_status : String := "unknown"
  traffic_percentage : Int := 0
deriving DecidableEq

/-- State owned by `BlueGreenDeploymentManager` (lines 373-378):
`deployments` holds the registry dict values in insertion order (keys are
the unique `deployment_id`s), `active_slots` maps model name → slot. -/
structure BlueGreenState where
  router : TrafficRouter
  deployments : List ModelDeployment
  active_slots : List (String × DeploymentSlot)
deriving DecidableEq

/-- Embeds `_get_opposite_slot` (lines 545-547). -/
def oppositeSlot : DeploymentSlot → DeploymentSlot
  | .blue => .green
  | .green => .blue

/-- Python `self.deployments[deployment_id].status = s` / updating the aliased
dataclass object: rewrite every registry entry with the given id. -/
def setStatusById (ds : List ModelDeployment) (depId : String) (s : DeploymentStatus) :
    List ModelDeployment :=
  ds.map (fun d => if d.deployment_id = depId then { d with status := s } else d)

/-- The loops at lines 537-541 and 585-588: mark every deployment of the
model in the given slot `Inactive` with 0% traffic. -/
def markSlotInactive (ds : List ModelDeployment) (model : String) (slot : DeploymentSlot) :
    List ModelDeployment :=
  ds.map (fun d =>
    if d.model_name = model ∧ d.slot = slot then
      { d with status := .inactive, traffic_percentage := 0 }
    else d)

/-- The health verdict of `_monitor_traffic_shift` (lines 498-523): healthy
unless the error rate exceeds 5% or the mean latency exceeds 5000 ms.
The source feeds this check the simulated constants (2%, 1200 ms) that
stand in for the live metrics of the external monitoring collaborator;
here the two metric values are inputs of the function. -/
def monitorHealthy (errorRate avgResponseTimeMs : ℚ) : Bool :=
  !(decide (errorRate > 5/100)) && !(decide (avgResponseTimeMs > 5000))

/-- The fixed percentage ladder of `_gradual_traffic_shift` (line 470). -/
def trafficSteps : List Int := [10, 25, 50, 75, 100]

/-- Loop body of `_gradual_traffic_shift` (lines 472-496): at each step
route `step`% to the new slot and the complement to the opposite slot,
then consult the health monitor (fed by `metrics : step ↦ (error rate,
mean latency)`); stop with failure on the first unhealthy step. -/
def gradualShiftGo (metrics : Int → ℚ × ℚ) (model : String) (newSlot : DeploymentSlot) :
    List Int → TrafficRouter → Bool × TrafficRouter
  | [], r => (true, r)
  | step :: rest, r =>
    let r1 := updateTrafficSplit r model
      [(newSlot.value, step), ((oppositeSlot newSlot).value, 100 - step)]
    if monitorHealthy (metrics step).1 (metrics step).2 then
      gradualShiftGo metrics model newSlot rest r1
    else (false, r1)

/-- Embeds `_gradual_traffic_shift` (lines 468-496). -/
def gradualTrafficShift (metrics : Int → ℚ × ℚ) (model : String)
    (newSlot : DeploymentSlot) (r : TrafficRouter) : Bool × TrafficRouter :=
  gradualShiftGo metrics model newSlot trafficSteps r

/-- Embeds `_complete_blue_green_switch` (lines 525-543): flip the active-slot
pointer, route 100/0 to the new slot, and mark the deployments of the old slot
inactive (skipped when the model had no active slot yet). -/
def completeBlueGreenSwitch (s : BlueGreenState) (model : String)
    (newActiveSlot : DeploymentSlot) : BlueGreenState :=
  let oldSlot := alookup s.active_slots model
  let slots := aset s.active_slots model newActiveSlot
  let router := updateTrafficSplit s.router model
    [(newActiveSlot.value, 100), ((oppositeSlot newActiveSlot).value, 0)]
  let ds :=
    match oldSlot with
    | none => s.deployments
    | some old => markSlotInactive s.deployments model old
  { router := router, deployments := ds, active_slots := slots }

inductive RollbackResult
  | success (rolledBackTo : String) (activeSlot : DeploymentSlot)
  | noActiveDeployment
  | noPreviousDeployment
deriving DecidableEq

/-- The candidate search of `rollback_deployment` (lines 561-566): the
FIRST registry entry (in insertion order) of this model in the given slot
with status `Inactive` — the Python loop breaks at the first hit. -/
def findPreviousDeployment (ds : List ModelDeployment) (model : String)
    (slot : DeploymentSlot) : Option ModelDeployment :=
  ds.find? (fun d =>
    d.model_name = model ∧ d.slot = slot ∧ d.status = DeploymentStatus.inactive)

/-- Embeds `rollback_deployment` (lines 549-601).  Error branches return the
unchanged state; the success branch routes 100/0 to the opposite slot,
promotes the found deployment to `Active`/100%, demotes every deployment
in the formerly active slot to `Inactive`/0%, and flips the pointer. -/
def rollbackDeployment (s : BlueGreenState) (model : String) :
    RollbackResult × BlueGreenState :=
  match alookup s.active_slots model with
  | none => (.noActiveDeployment, s)
  | some currentSlot =>
    let previousSlot := oppositeSlot currentSlot
    match findPreviousDeployment s.deployments model previousSlot with
    | none => (.noPreviousDeployment, s)
    | some prev =>
      let router := updateTrafficSplit s.router model
        [(previousSlot.value, 100), (currentSlot.value, 0)]
      let ds1 := s.deployments.map (fun d =>
        if d.deployment_id = prev.deployment_id then
          { d with status := .active, traffic_percentage := 100 }
        else d)
      let ds2 := markSlotInactive ds1 model currentSlot
      (.success prev.deployment_id previousSlot,
        { router := router, deployments := ds2,
          active_slots := aset s.active_slots model previousSlot })

inductive DeployOutcome
  | success (deploymentId : String) (activeSlot : DeploymentSlot) (endpoint : String)
  | validationFailed
  | trafficShiftFailed
deriving DecidableEq

/-- The deployment id string built at line 389. -/
def mkDeploymentId (model version : String) (slot : DeploymentSlot) (ts : Nat) : String :=
  model ++ "-" ++ version ++ "-" ++ slot.value ++ "-" ++ toString ts

/-- The endpoint written by `_deploy_to_azure` (line 466), which overwrites
the provisional one from line 401 before the registry entry is read. -/
def mkEndpoint (model : String) (slot : DeploymentSlot) : String :=
  "https://" ++ model ++ "-" ++ slot.value ++ ".cognitiveservices.azure.com"

/-- The `Staging` registry entry created at lines 395-404 (endpoint as
rewritten by `_deploy_to_azure`). -/
def mkStagingDeployment (model version : String) (slot : DeploymentSlot) (ts : Nat) :
    ModelDeployment :=
  { deployment_id := mkDeploymentId model version slot ts, model_name := model,
    model_version := version, slot := slot, status := .staging,
    endpoint_url := mkEndpoint model slot, created_at := ts }

/-- Embeds `deploy_new_version` (lines 380-457).  The validation verdict of
`HealthChecker.validate_deployment` and the live metrics consulted during
the traffic shift are the external inputs of the run; `ts` is the
timestamp tick used in the generated id.  Steps, in source order: pick the
slot opposite the active one (default active = blue), register a `Staging`
deployment, gate on validation (failure: mark `Failed`, no traffic ever
moved), run the gradual shift (failure: mark `Failed`, then call
`rollback_deployment` ignoring its result), and on success complete the
switch and mark the new deployment `Active`. -/
def deployNewVersion (s : BlueGreenState) (model version : String) (ts : Nat)
    (validationPassed : Bool) (metrics : Int → ℚ × ℚ) :
    DeployOutcome × BlueGreenState :=
  let currentActive := (alookup s.active_slots model).getD .blue
  let newSlot := oppositeSlot currentActive
  let depId := mkDeploymentId model version newSlot ts
  let dep := mkStagingDeployment model version newSlot ts
  let s1 : BlueGreenState := { s with deployments := s.deployments ++ [dep] }
  if validationPassed then
    let shift := gradualTrafficShift metrics model newSlot s1.router
    let s2 : BlueGreenState := { s1 with router := shift.2 }
    if shift.1 then
      let s3 := completeBlueGreenSwitch s2 model newSlot
      let s4 : BlueGreenState := { s3 with deployments := setStatusById s3.deployments depId .active }
      (.success depId newSlot dep.endpoint_url, s4)
    else
      let s3 : BlueGreenState := { s2 with deployments := setStatusById s2.deployments depId .failed }
      (.trafficShiftFailed, (rollbackDeployment s3 model).2)
  else
    (.validationFailed, { s1 with deployments := setStatusById s1.deployments depId .failed })

/-! ## HealthChecker (main.py lines 108-305)

Each validation rule wraps its whole body in `try/except Exception` and
converts an internal exception into a failed check result itself; the
loop in `validate_deployment` additionally guards against an exception
escaping a rule.  The possible internal exception of a rule is passed in as an
`Option String`; an exception escaping a rule into the loop is the `exn`
outcome below. -/

structure CheckResult where
  name : String
  passed : Bool
  message : String
  warnings : List String := []
deriving DecidableEq

/-- What `await rule(deployment)` does from the point of view of the loop:
either yields a check-result dict or raises. -/
inductive CheckOutcome
  | ok (result : CheckResult)
  | exn (msg : String)
deriving DecidableEq

/-- The aggregated report built by `validate_deployment` (lines 123-129). -/
structure ValidationResult where
  passed : Bool := true
  checks : List CheckResult := []
  errors : List String := []
  warnings : List String := []
deriving DecidableEq

/-- One iteration of the loop at lines 131-146.  A returned result is
appended to `checks`, fails the report and contributes its message to
`errors` when not passed, and contributes its warnings; a raised rule
fails the report and contributes only an error string — nothing is
appended to `checks` in that branch. -/
def validateStep (acc : ValidationResult) : CheckOutcome → ValidationResult
  | .ok r =>
    let acc1 := { acc with checks := acc.checks ++ [r] }
    let acc2 :=
      if r.passed then acc1
      else { acc1 with passed := false, errors := acc1.errors ++ [r.message] }
    { acc2 with warnings := acc2.warnings ++ r.warnings }
  | .exn m =>
    { acc with passed := false, errors := acc.errors ++ ["Validation rule failed: " ++ m] }

/-- The loop of `validate_deployment` over the outcomes of the four rules. -/
def validateLoop (outcomes : List CheckOutcome) : ValidationResult :=
  outcomes.foldl validateStep {}

/-- Embeds `_validate_endpoint_connectivity` (lines 151-175): the simulated health
probe always reports `"healthy"`, so the check passes unless its body
raises, in which case its own `except` returns a failed result. -/
def validateEndpointConnectivity (internalExn : Option String) : CheckResult :=
  match internalExn with
  | some e =>
    { name := "endpoint_connectivity", passed := false,
      message := "Endpoint connectivity failed: " ++ e }
  | none =>
    { name := "endpoint_connectivity", passed := true,
      message := "Endpoint health: healthy" }

/-- Character-list prefix test, building block for the substring test the
mock response selection needs. -/
def charPrefix : List Char → List Char → Bool
  | [], _ => true
  | _ :: _, [] => false
  | a :: as, b :: bs => a = b && charPrefix as bs

/-- Python `pat in s` on character lists. -/
def charInfix (pat : List Char) : List Char → Bool
  | [] => pat.isEmpty
  | b :: bs => charPrefix pat (b :: bs) || charInfix pat bs

/-- Python `sub in s` for strings. -/
def strContains (s sub : String) : Bool :=
  charInfix sub.toList s.toList

/-- The mock model reply of `_validate_model_response` (lines 195-203). -/
def mockResponse (input : String) : String :=
  if strContains input.toLower "hello" then "Hello! I\x27m doing well, thank you for asking."
  else if strContains input "2+2" then "2+2 equals 4."
  else if strContains input.toLower "summarize" then "A fox jumps over a dog."
  else "I understand you asked: " ++ input

/-- The response acceptance test at line 206. -/
def isValidResponse (resp : String) : Bool :=
  decide (5 < resp.length) && decide (resp.trim ≠ "")

/-- The fixed test battery of `_validate_model_response` (lines 181-186). -/
def testInputs : List String :=
  ["Hello, how are you?", "What is 2+2?",
   "Summarize this text: The quick brown fox jumps over the lazy dog."]

/-- Embeds `_validate_model_response` (lines 177-234): at least 80% of the mock
battery must yield a non-trivial response.  (The interpolated rate in the
message f-string is elided.) -/
def validateModelResponse (internalExn : Option String) : CheckResult :=
  match internalExn with
  | some e =>
    { name := "model_response_validation", passed := false,
      message := "Model response validation failed: " ++ e }
  | none =>
    let passedTests := (testInputs.filter (fun t => isValidResponse (mockResponse t))).length
    let successRate : ℚ := (passedTests : ℚ) / (testInputs.length : ℚ)
    { name := "model_response_validation", passed := decide (successRate ≥ 8/10),
      message := "Model response validation: success rate" }

/-- Embeds `_validate_performance_metrics` (lines 236-284), with the five
wall-clock latency samples (ms) as input.  Mean above 3000 ms or p95
(`sorted(samples)[int(0.95 * len)]`) above 5000 ms fails the check; mean
above the 2000 ms soft threshold only warns. -/
def validatePerformanceMetrics (internalExn : Option String) (samples : List ℚ) : CheckResult :=
  match internalExn with
  | some e =>
    { name := "performance_validation", passed := false,
      message := "Performance validation failed: " ++ e }
  | none =>
    let avg : ℚ := samples.sum / (samples.length : ℚ)
    let sorted := samples.mergeSort (fun a b => decide (a ≤ b))
    let p95 : ℚ := (sorted.getD (95 * samples.length / 100) 0)
    { name := "performance_validation",
      passed := decide (avg ≤ 3000) && decide (p95 ≤ 5000),
      message := "Performance: avg and p95",
      warnings := if avg > 2000 then ["Average response time above optimal"] else [] }

/-- Embeds `_validate_api_compatibility` (lines 286-305): the mocked
compatibility score 1.0 always meets the 0.95 bar. -/
def validateApiCompatibility (internalExn : Option String) : CheckResult :=
  match internalExn with
  | some e =>
    { name := "api_compatibility", passed := false,
      message := "API compatibility validation failed: " ++ e }
  | none =>
    { name := "api_compatibility", passed := decide ((1 : ℚ) ≥ 95/100),
      message := "API compatibility" }

/-- Embeds `validate_deployment` (lines 119-149): run the four rules in their
registration order (line 112-117) and fold the loop over their outcomes.
Each rule catches its own internal exception, so the loop only ever sees
`ok` outcomes from them; `validateLoop` still embeds the except branch
of the loop. -/
def validateDeployment (e1 e2 e3 e4 : Option String) (samples : List ℚ) : ValidationResult :=
  validateLoop
    [.ok (validateEndpointConnectivity e1),
     .ok (validateModelResponse e2),
     .ok (validatePerformanceMetrics e3 samples),
     .ok (validateApiCompatibility e4)]

/-! ## CanaryReleaseManager (main.py lines 631-903) -/

inductive CanaryStatus
  | running
  | completed
  | aborted
  | paused
deriving DecidableEq

/-- The `CanaryConfiguration` dataclass (lines 96-105). -/
structure CanaryConfiguration where
  model_name : String
  canary_version : String
  baseline_version : String
  canary_traffic_percentage : Int
  success_criteria : List (String × ℚ)
  rollout_duration_minutes : Int
  evaluation_interval_minutes : Int
  auto_promote : Bool := true
deriving DecidableEq

/-- The per-criterion comparison of `_evaluate_canary_performance`
(lines 740-751): relative bands for the two lower-is-better metrics and
the higher-is-better satisfaction metric, absolute band otherwise. -/
def criterionPasses (criterion : String) (threshold canaryValue baselineValue : ℚ) : Bool :=
  if criterion = "error_rate" then decide (canaryValue ≤ baselineValue * (1 + threshold))
  else if criterion = "response_time" then decide (canaryValue ≤ baselineValue * (1 + threshold))
  else if criterion = "user_satisfaction" then decide (canaryValue ≥ baselineValue * (1 - threshold))
  else decide (|canaryValue - baselineValue| ≤ threshold)

/-- One evaluation record (lines 722-730).  The f-string `reason` texts
are elided; decision and confidence carry the information. -/
structure CanaryEvaluation where
  timestamp : Nat
  canary_metrics : List (String × ℚ)
  baseline_metrics : List (String × ℚ)
  criteria_results : List (String × Bool)
  decision : String
  confidence : ℚ
deriving DecidableEq

/-- Embeds `_evaluate_canary_performance` (lines 713-777) with the two metric
snapshots (the external Metrics API values) as inputs.  Missing metrics
default to 0 (`metrics.get(criterion, 0)`).  `none` models the
`ZeroDivisionError` that line 764 raises for an empty criteria map. -/
def evaluateCanaryPerformance (config : CanaryConfiguration)
    (canaryMetrics baselineMetrics : List (String × ℚ)) (now : Nat) :
    Option CanaryEvaluation :=
  match config.success_criteria with
  | [] => none
  | _ :: _ =>
    let results := config.success_criteria.map (fun p =>
      (p.1, criterionPasses p.1 p.2
        ((alookup canaryMetrics p.1).getD 0)
        ((alookup baselineMetrics p.1).getD 0)))
    let passedCount := (results.filter (fun q => q.2)).length
    let rate : ℚ := (passedCount : ℚ) / (config.success_criteria.length : ℚ)
    let decision := if rate < 7/10 then "abort"
      else if rate ≥ 9/10 then "proceed"
      else "hold"
    some { timestamp := now, canary_metrics := canaryMetrics,
           baseline_metrics := baselineMetrics, criteria_results := results,
           decision := decision, confidence := rate }

/-- Embeds `_calculate_next_traffic_percentage` (lines 812-830), with
`target = config.canary_traffic_percentage` and the current percentage
of the release. -/
def calculateNextTrafficPercentage (target current : Int) : Int :=
  if current < 5 then 5
  else if current < 10 then 10
  else if current < 25 then 25
  else if current < 50 then 50
  else if current < target then min target (current + 25)
  else current

/-- One entry of `active_canaries` (lines 651-657). -/
structure CanaryInfo where
  config : CanaryConfiguration
  start_time : Nat
  status : CanaryStatus
  evaluations : List CanaryEvaluation
  current_traffic_percentage : Int
deriving DecidableEq

/-- One entry of `canary_results` (lines 850-855 / 877-883). -/
structure CanaryResultRecord where
  evaluations : List CanaryEvaluation
  final_status : String
  abort_reason : Option String := none
  duration_ticks : Nat
deriving DecidableEq

/-- State owned by `CanaryReleaseManager` (lines 634-638). -/
structure CanaryManagerState where
  router : TrafficRouter
  active_canaries : List (String × CanaryInfo)
  canary_results : List (String × CanaryResultRecord)
deriving DecidableEq

/-- Embeds `_update_canary_traffic` (lines 796-810); `none` is the `KeyError` on
an unknown id. -/
def updateCanaryTraffic (m : CanaryManagerState) (id : String) (pct : Int) :
    Option CanaryManagerState :=
  match alookup m.active_canaries id with
  | none => none
  | some info =>
    let router := updateTrafficSplit m.router info.config.model_name
      [("canary", pct), ("baseline", 100 - pct)]
    let canaries := aset m.active_canaries id { info with current_traffic_percentage := pct }
    some { m with router := router, active_canaries := canaries }

/-- Embeds `start_canary_release` (lines 641-678): register a `Running` release
and apply the bootstrap split `min(target, 5)`. -/
def startCanaryRelease (m : CanaryManagerState) (config : CanaryConfiguration)
    (now : Nat) : String × CanaryManagerState :=
  let id := "canary-" ++ config.model_name ++ "-" ++ config.canary_version
    ++ "-" ++ toString now
  let info : CanaryInfo :=
    { config := config, start_time := now, status := .running,
      evaluations := [], current_traffic_percentage := 0 }
  let initialTraffic := min config.canary_traffic_percentage 5
  let router := updateTrafficSplit m.router config.model_name
    [("canary", initialTraffic), ("baseline", 100 - initialTraffic)]
  let canaries := aset m.active_canaries id { info with current_traffic_percentage := initialTraffic }
  (id, { router := router, active_canaries := canaries, canary_results := m.canary_results })

/-- Embeds `_abort_canary_release` (lines 859-883): revert the split to 0/100,
mark the release `Aborted`, and add a result record.  The entry is NOT
removed from `active_canaries`. -/
def abortCanaryRelease (m : CanaryManagerState) (id reason : String) (now : Nat) :
    Option CanaryManagerState :=
  match alookup m.active_canaries id with
  | none => none
  | some info =>
    let router := updateTrafficSplit m.router info.config.model_name
      [("canary", 0), ("baseline", 100)]
    let res : CanaryResultRecord :=
      { evaluations := info.evaluations, final_status := "aborted",
        abort_reason := some reason, duration_ticks := now - info.start_time }
    some { router := router,
           active_canaries := aset m.active_canaries id { info with status := .aborted },
           canary_results := aset m.canary_results id res }

/-- Embeds `_complete_canary_release` (lines 832-857): promote to 100/0 when
`auto_promote` is set, mark the release `Completed`, and add a result
record.  The entry is NOT removed from `active_canaries`. -/
def completeCanaryRelease (m : CanaryManagerState) (id : String) (now : Nat) :
    Option CanaryManagerState :=
  match alookup m.active_canaries id with
  | none => none
  | some info =>
    let router :=
      if info.config.auto_promote then
        updateTrafficSplit m.router info.config.model_name
          [("canary", 100), ("baseline", 0)]
      else m.router
    let res : CanaryResultRecord :=
      { evaluations := info.evaluations, final_status := "success",
        duration_ticks := now - info.start_time }
    some { router := router,
           active_canaries := aset m.active_canaries id { info with status := .completed },
           canary_results := aset m.canary_results id res }

/-- One evaluation cycle of `_monitor_canary_release` (lines 697-708):
evaluate, append the record to the history, then dispatch on the decision
(abort → `_abort_canary_release`, proceed → advance traffic via
`_calculate_next_traffic_percentage`, hold → nothing). -/
def canaryCycle (m : CanaryManagerState) (id : String)
    (canaryMetrics baselineMetrics : List (String × ℚ)) (now : Nat) :
    Option CanaryManagerState :=
  match alookup m.active_canaries id with
  | none => none
  | some info =>
    match evaluateCanaryPerformance info.config canaryMetrics baselineMetrics now with
    | none => none
    | some ev =>
      let info1 := { info with evaluations := info.evaluations ++ [ev] }
      let m1 := { m with active_canaries := aset m.active_canaries id info1 }
      if ev.decision = "abort" then abortCanaryRelease m1 id "criteria below minimum" now
      else if ev.decision = "proceed" then
        updateCanaryTraffic m1 id
          (calculateNextTrafficPercentage info1.config.canary_traffic_percentage
            info1.current_traffic_percentage)
      else some m1

/-- Shape of the return value of `get_canary_status` (lines 885-903). -/
inductive CanaryStatusResponse
  | live (canaryId modelName : String) (status : CanaryStatus)
      (currentTrafficPercentage : Int) (evaluationsCount : Nat)
      (latestEvaluation : Option CanaryEvaluation)
  | finalized (record : CanaryResultRecord)
  | notFound
deriving DecidableEq

def CanaryStatusResponse.isFinalized : CanaryStatusResponse → Bool
  | .finalized _ => true
  | _ => false

/-- Embeds `get_canary_status` (lines 885-903): the `active_canaries` branch is
tried first; only ids absent from it fall through to `canary_results`,
and unknown ids produce the not-found error result. -/
def getCanaryStatus (m : CanaryManagerState) (id : String) : CanaryStatusResponse :=
  match alookup m.active_canaries id with
  | some info =>
    .live id info.config.model_name info.status info.current_traffic_percentage
      info.evaluations.length info.evaluations.getLast?
  | none =>
    match alookup m.canary_results id with
    | some res => .finalized res
    | none => .notFound

/-! ## Concrete fixtures used by the example runs below -/

/-- The state of a freshly constructed `BlueGreenDeploymentManager`. -/
def initialBG : BlueGreenState := ⟨TrafficRouter.empty, [], []⟩

/-- The simulated live metrics of `_monitor_traffic_shift` (lines 502-503):
2% error rate, 1200 ms mean latency — healthy at every step. -/
def metricsGood : Int → ℚ × ℚ := fun _ => (2/100, 1200)

/-- A metrics feed that violates the 5% error-rate threshold at every
step, driving `_gradual_traffic_shift` into its failure branch. -/
def metricsUnhealthy : Int → ℚ × ℚ := fun _ => (1, 10000)

/-- A green-slot deployment that went `Inactive` in an earlier cycle. -/
def oldGreen : ModelDeployment :=
  { deployment_id := "m-v0-green-0", model_name := "m", model_version := "v0",
    slot := .green, status := .inactive, endpoint_url := mkEndpoint "m" .green,
    created_at := 0 }

/-- The currently active blue-slot deployment. -/
def oldBlue : ModelDeployment :=
  { deployment_id := "m-v1-blue-1", model_name := "m", model_version := "v1",
    slot := .blue, status := .active, endpoint_url := mkEndpoint "m" .blue,
    created_at := 1, traffic_percentage := 100 }

/-- A manager state with one full blue-green history: blue active, an
inactive deployment left in green. -/
def bgWithHistory : BlueGreenState :=
  ⟨TrafficRouter.empty, [oldGreen, oldBlue], [("m", .blue)]⟩

/-- An older inactive green deployment (registered first). -/
def greenOlder : ModelDeployment :=
  { deployment_id := "m-v1-green-1", model_name := "m", model_version := "v1",
    slot := .green, status := .inactive, endpoint_url := mkEndpoint "m" .green,
    created_at := 1 }

def blueMid : ModelDeployment :=
  { deployment_id := "m-v2-blue-2", model_name := "m", model_version := "v2",
    slot := .blue, status := .inactive, endpoint_url := mkEndpoint "m" .blue,
    created_at := 2 }

/-- A more recent inactive green deployment (registered later). -/
def greenNewer : ModelDeployment :=
  { deployment_id := "m-v3-green-3", model_name := "m", model_version := "v3",
    slot := .green, status := .inactive, endpoint_url := mkEndpoint "m" .green,
    created_at := 3 }

def blueActive : ModelDeployment :=
  { deployment_id := "m-v4-blue-4", model_name := "m", model_version := "v4",
    slot := .blue, status := .active, endpoint_url := mkEndpoint "m" .blue,
    created_at := 4, traffic_percentage := 100 }

/-- Four completed cycles: two inactive rollback candidates in green. -/
def bgTwoCandidates : BlueGreenState :=
  ⟨TrafficRouter.empty, [greenOlder, blueMid, greenNewer, blueActive], [("m", .blue)]⟩

/-- A canary configuration with the single criterion
`{error_rate: 0.05}` and target 50, as in the example scenario of the spec. -/
def cfgSingleCriterion : CanaryConfiguration :=
  { model_name := "m", canary_version := "c", baseline_version := "b",
    canary_traffic_percentage := 50, success_criteria := [("error_rate", 5/100)],
    rollout_duration_minutes := 5, evaluation_interval_minutes := 1 }

/-- The state of a freshly constructed `CanaryReleaseManager`. -/
def initialCanaryMgr : CanaryManagerState := ⟨TrafficRouter.empty, [], []⟩

/-- A started single-criterion release (id and manager state). -/
def startedCanary : String × CanaryManagerState :=
  startCanaryRelease initialCanaryMgr cfgSingleCriterion 3

/-- The manager state after that release completes at tick 9. -/
def completedCanaryMgr : CanaryManagerState :=
  (completeCanaryRelease startedCanary.2 startedCanary.1 9).getD initialCanaryMgr

/-- Candidate metrics with a catastrophic error rate (100%). -/
def canaryMetricsBad : List (String × ℚ) := [("error_rate", 1)]

/-- Baseline metrics with the simulated 2% base error rate. -/
def baselineMetrics0 : List (String × ℚ) := [("error_rate", 1/50)]

/-- The evaluation record the failing cycle produces: the single
criterion fails, confidence 0, decision abort. -/
def evalAbort : CanaryEvaluation :=
  { timestamp := 4, canary_metrics := canaryMetricsBad,
    baseline_metrics := baselineMetrics0,
    criteria_results := [("error_rate", false)],
    decision := "abort", confidence := 0 }

/-- The manager state after that failing evaluation cycle: split reverted
to canary 0 / baseline 100, release `Aborted`, result record stored. -/
def abortedCanaryMgr : CanaryManagerState :=
  { router := { routing_rules := [("m", [("canary", 0), ("baseline", 100)])],
                request_counts := [("m", [("canary", 0), ("baseline", 0)])] },
    active_canaries := [("canary-m-c-3",
      { config := cfgSingleCriterion, start_time := 3, status := .aborted,
        evaluations := [evalAbort], current_traffic_percentage := 5 })],
    canary_results := [("canary-m-c-3",
      { evaluations := [evalAbort], final_status := "aborted",
        abort_reason := some "criteria below minimum", duration_ticks := 1 })] }

/-- The release entry registered by `startedCanary` (bootstrap traffic
`min(50, 5) = 5`). -/
def startedInfo : CanaryInfo :=
  { config := cfgSingleCriterion, start_time := 3, status := .running,
    evaluations := [], current_traffic_percentage := 5 }

/-- Candidate metrics for the example scenario of the spec: error rate 0.021
against baseline 0.020 under threshold 0.05. -/
def canaryMetricsGood : List (String × ℚ) := [("error_rate", 21/1000)]

/-- The evaluation record of the example scenario: the criterion passes,
confidence 1, decision proceed. -/
def evalProceed : CanaryEvaluation :=
  { timestamp := 0, canary_metrics := canaryMetricsGood,
    baseline_metrics := baselineMetrics0,
    criteria_results := [("error_rate", true)],
    decision := "proceed", confidence := 1 }

/-- The default check result used for positional indexing in reports. -/
def blankCheck : CheckResult := { name := "", passed := true, message := "" }

/-- A router with the split `a:30 / b:70` applied. -/
def routerAB : TrafficRouter :=
  updateTrafficSplit TrafficRouter.empty "m" [("a", 30), ("b", 70)]

/-- The state of `routerAB` after one request routed to `a`. -/
def routerABAfterA : TrafficRouter :=
  { routing_rules := routerAB.routing_rules,
    request_counts := [("m", [("a", 1), ("b", 0)])] }

/-- A router with an under-full split `a:30 / b:40` applied. -/
def routerUnderfull : TrafficRouter :=
  updateTrafficSplit TrafficRouter.empty "m" [("a", 30), ("b", 40)]

/-! ## Association-list lemmas -/

theorem alookup_cons {β : Type} (k : String) (v : β)
    (rest : List (String × β)) (key : String) :
    alookup ((k, v) :: rest) key = if k = key then some v else alookup rest key := rfl

theorem alookup_aset_self {β : Type} (l : List (String × β)) (key : String) (v : β) :
    alookup (aset l key v) key = some v := by
  induction l with
  | nil => simp [aset, alookup]
  | cons hd tl ih =>
    obtain ⟨k, w⟩ := hd
    by_cases h : k = key <;> simp [aset, alookup, h, ih]

theorem alookup_aset_ne {β : Type} (l : List (String × β)) (key key' : String) (v : β)
    (h : key ≠ key') :
    alookup (aset l key v) key' = alookup l key' := by
  induction l with
  | nil => simp [aset, alookup, h]
  | cons hd tl ih =>
    obtain ⟨k, w⟩ := hd
    by_cases hk : k = key
    · subst hk; simp [aset, alookup, h]
    · simp only [aset, if_neg hk, alookup_cons]
      by_cases hk' : k = key' <;> simp [hk', ih]

/-- The split stored by `update_traffic_split` is exactly the given one. -/
theorem alookup_updateTrafficSplit (r : TrafficRouter) (model : String)
    (split : TrafficSplit) :
    alookup (updateTrafficSplit r model split).routing_rules model = some split := by
  simp [updateTrafficSplit, alookup_aset_self]

/-! ## Health-gate evaluation lemmas

The kernel does not compute with normalized rationals, so the metric
threshold gates are evaluated propositionally once and rewritten. -/

theorem monitorHealthy_metricsUnhealthy (s : Int) :
    monitorHealthy (metricsUnhealthy s).1 (metricsUnhealthy s).2 = false := by
  simp only [metricsUnhealthy, monitorHealthy]
  norm_num

theorem monitorHealthy_metricsGood (s : Int) :
    monitorHealthy (metricsGood s).1 (metricsGood s).2 = true := by
  simp only [metricsGood, monitorHealthy]
  norm_num

/-- With every step unhealthy, the gradual shift stops at its first step
(10% to the new slot) and reports failure. -/
theorem gradualShift_metricsUnhealthy (model : String) (slot : DeploymentSlot)
    (r : TrafficRouter) :
    gradualTrafficShift metricsUnhealthy model slot r =
      (false, updateTrafficSplit r model [(slot.value, 10), ((oppositeSlot slot).value, 90)]) := by
  simp [gradualTrafficShift, trafficSteps, gradualShiftGo, monitorHealthy_metricsUnhealthy]

/-- With every step healthy, the gradual shift reaches 100% and succeeds. -/
theorem gradualShift_metricsGood (model : String) (slot : DeploymentSlot)
    (r : TrafficRouter) :
    (gradualTrafficShift metricsGood model slot r).1 = true := by
  simp [gradualTrafficShift, trafficSteps, gradualShiftGo, monitorHealthy_metricsGood]

/-! ## Claim C1 -/

/-- C1: the claim states that a `TrafficShiftFailed` outcome always ends
with the live split at 100% on the pre-existing slot and 0% on the new
slot.  The code violates this: the failure path marks the deployment
`Failed` and then calls `rollback_deployment`, which keys off the
active-slot pointer that has NOT yet flipped.  On a first deployment the
rollback finds no active slot and leaves the split at the partial step
where the shift stopped (green 10 / blue 90); with an inactive deployment
in the new slot, the rollback even routes 100% of traffic to the NEW
slot (green 100 / blue 0) instead of the pre-existing blue slot. -/
theorem C1_traffic_shift_failed_not_reverted :
    (deployNewVersion initialBG "gpt" "v2" 7 true metricsUnhealthy).1 =
      DeployOutcome.trafficShiftFailed ∧
    alookup (deployNewVersion initialBG "gpt" "v2" 7 true metricsUnhealthy).2.router.routing_rules
      "gpt" = some [("green", 10), ("blue", 90)] ∧
    (deployNewVersion bgWithHistory "m" "v9" 7 true metricsUnhealthy).1 =
      DeployOutcome.trafficShiftFailed ∧
    alookup (deployNewVersion bgWithHistory "m" "v9" 7 true metricsUnhealthy).2.router.routing_rules
      "m" = some [("green", 100), ("blue", 0)] := by
  have e1 : oppositeSlot ((alookup ([] : List (String × DeploymentSlot)) "gpt").getD .blue) =
      DeploymentSlot.green := rfl
  have e2 : oppositeSlot ((alookup [("m", DeploymentSlot.blue)] "m").getD .blue) =
      DeploymentSlot.green := rfl
  have h1 := gradualShift_metricsUnhealthy "gpt" .green TrafficRouter.empty
  have h2 := gradualShift_metricsUnhealthy "m" .green TrafficRouter.empty
  refine ⟨?_, ?_, ?_, ?_⟩
  · simp only [deployNewVersion, initialBG]; rw [e1, h1]; decide
  · simp only [deployNewVersion, initialBG]; rw [e1, h1]; decide
  · simp only [deployNewVersion, bgWithHistory]; rw [e2, h2]; decide
  · simp only [deployNewVersion, bgWithHistory]; rw [e2, h2]; decide

/-! ## Claim C2 -/

/-- C2 counterexample: `update_traffic_split` accepts a split whose single
weight is 150 (negative-weight and non-100 sums alike are never checked):
the call succeeds and the stored split becomes the invalid one, so the
claimed `InvalidSplitError` failure and the sums-to-100 invariant of
applied splits are both false. -/
theorem C2_counterexample_invalid_split_applied :
    (updateTrafficSplit TrafficRouter.empty "gpt" [("canary", 150)]).routing_rules =
      [("gpt", [("canary", 150)])] ∧
    ((150 : Int) ≠ 100) := by
  exact ⟨rfl, by decide⟩

/-- C2 amended: `update_traffic_split` performs no validation at all: for
every split (invalid ones included) the call succeeds and the stored
split for the model becomes exactly the given mapping. -/
theorem C2_update_stores_any_split (r : TrafficRouter) (model : String)
    (split : TrafficSplit) :
    alookup (updateTrafficSplit r model split).routing_rules model = some split :=
  alookup_updateTrafficSplit r model split

/-! ## Claim C3 -/

/-- C3 counterexample: with configured target 30 and current percentage 25
(reached through the fixed 5-10-25 ladder), a proceed decision advances to
50, exceeding the configured target — the claimed bound fails for targets
below 50. -/
theorem C3_counterexample_target_exceeded :
    calculateNextTrafficPercentage 30 25 = 50 ∧
    ¬(calculateNextTrafficPercentage 30 25 ≤ 30) := by
  decide

/-- C3 amended: a proceed advance never decreases the percentage, and is
bounded by `max current (max 50 target)`; the claimed bound by the
configured target itself holds whenever the target is at least 50 (the
last ladder step) and the current percentage has not exceeded it. -/
theorem C3_next_traffic_monotone_bounded (target current : Int) :
    current ≤ calculateNextTrafficPercentage target current ∧
    calculateNextTrafficPercentage target current ≤ max current (max 50 target) ∧
    (50 ≤ target → current ≤ target → calculateNextTrafficPercentage target current ≤ target) := by
  unfold calculateNextTrafficPercentage
  split_ifs <;> refine ⟨by omega, ?_, fun h1 h2 => by omega⟩ <;>
    simp only [le_max_iff, min_le_iff] <;> omega

/-- C3 witness: at target 50 (the demo configuration) and current 25 the
advance lands on 50 and respects the bound. -/
theorem C3_witness_target50 : calculateNextTrafficPercentage 50 25 ≤ 50 :=
  (C3_next_traffic_monotone_bounded 50 25).2.2 (by decide) (by decide)

/-! ## Claim C4 -/

/-- C4 counterexample: a release that has completed (status `Completed`, a
result record stored in `canary_results`) is still served from the
`active_canaries` branch of `get_canary_status`, because completion never
removes the entry — the response is the live-shaped record (with
evaluation count and latest evaluation only), not the claimed finalized
result record with the full history. -/
theorem C4_counterexample_completed_not_finalized :
    (alookup completedCanaryMgr.active_canaries startedCanary.1).map CanaryInfo.status =
      some CanaryStatus.completed ∧
    (alookup completedCanaryMgr.canary_results startedCanary.1).isSome = true ∧
    getCanaryStatus completedCanaryMgr startedCanary.1 =
      CanaryStatusResponse.live startedCanary.1 "m" CanaryStatus.completed 5 0 none ∧
    (getCanaryStatus completedCanaryMgr startedCanary.1).isFinalized = false := by
  decide

/-- C4 amended: `get_canary_status` serves the live-shaped record for ANY
id present in `active_canaries` — and completed/aborted releases stay
there, their entry merely carrying the terminal status; the finalized
result record is returned only for ids absent from `active_canaries` but
present in `canary_results`; ids known to neither registry produce the
not-found error result. -/
theorem C4_status_branches (m : CanaryManagerState) (id : String) :
    (∀ info, alookup m.active_canaries id = some info →
      getCanaryStatus m id = CanaryStatusResponse.live id info.config.model_name info.status
        info.current_traffic_percentage info.evaluations.length info.evaluations.getLast?) ∧
    (alookup m.active_canaries id = none → ∀ res, alookup m.canary_results id = some res →
      getCanaryStatus m id = CanaryStatusResponse.finalized res) ∧
    (alookup m.active_canaries id = none → alookup m.canary_results id = none →
      getCanaryStatus m id = CanaryStatusResponse.notFound) ∧
    (∀ info t m', alookup m.active_canaries id = some info →
      completeCanaryRelease m id t = some m' →
      alookup m'.active_canaries id = some { info with status := .completed }) ∧
    (∀ info reason t m', alookup m.active_canaries id = some info →
      abortCanaryRelease m id reason t = some m' →
      alookup m'.active_canaries id = some { info with status := .aborted }) := by
  refine ⟨?_, ?_, ?_, ?_, ?_⟩
  · intro info h
    simp [getCanaryStatus, h]
  · intro h res h2
    simp [getCanaryStatus, h, h2]
  · intro h h2
    simp [getCanaryStatus, h, h2]
  · intro info t m' h h2
    simp only [completeCanaryRelease, h, Option.some.injEq] at h2
    subst h2
    exact alookup_aset_self _ _ _
  · intro info reason t m' h h2
    simp only [abortCanaryRelease, h, Option.some.injEq] at h2
    subst h2
    exact alookup_aset_self _ _ _

/-- C4 witness: a never-issued id produces the not-found error result. -/
theorem C4_witness_unknown_id :
    getCanaryStatus initialCanaryMgr "no-such-canary" = CanaryStatusResponse.notFound :=
  (C4_status_branches initialCanaryMgr "no-such-canary").2.2.1 rfl rfl

/-! ## Canary evaluation lemmas -/

/-- The failing evaluation of `canaryMetricsBad` against the baseline:
error rate 1 is far beyond `0.02 * 1.05`, so the single criterion fails. -/
theorem evaluate_canaryMetricsBad :
    evaluateCanaryPerformance cfgSingleCriterion canaryMetricsBad baselineMetrics0 4 =
      some evalAbort := by
  have hc : criterionPasses "error_rate" (5/100) 1 (1/50) = false := by
    simp only [criterionPasses, if_pos, decide_eq_false_iff_not]
    norm_num
  simp only [evaluateCanaryPerformance, cfgSingleCriterion, canaryMetricsBad,
    baselineMetrics0, List.map, alookup, String.reduceEq, reduceIte,
    Option.getD_some, evalAbort]
  rw [hc]
  norm_num [List.filter]

/-- The passing evaluation of the example scenario: `0.021 ≤ 0.020 * 1.05`
holds with equality, confidence 1, decision proceed. -/
theorem evaluate_canaryMetricsGood :
    evaluateCanaryPerformance cfgSingleCriterion canaryMetricsGood baselineMetrics0 0 =
      some evalProceed := by
  have hc : criterionPasses "error_rate" (5/100) (21/1000) (1/50) = true := by
    simp only [criterionPasses, if_pos, decide_eq_true_eq]
    norm_num
  simp only [evaluateCanaryPerformance, cfgSingleCriterion, canaryMetricsGood,
    baselineMetrics0, List.map, alookup, String.reduceEq, reduceIte,
    Option.getD_some, evalProceed]
  rw [hc]
  norm_num [List.filter]

/-! ## Claim C6 -/

/-- C6: the criterion-specific directionality of
`_evaluate_canary_performance` — relative upper band for `error_rate`
and `response_time`, relative lower band for `user_satisfaction`,
absolute band for anything else — together with the example
scenario: threshold 0.05, candidate error rate 0.021 vs baseline 0.020
passes, confidence is 1.0, the decision is proceed, and traffic advances
from 5 to 10 under the configured target 50. -/
theorem C6_criterion_directionality_and_scenario :
    (∀ t c b : ℚ, criterionPasses "error_rate" t c b = decide (c ≤ b * (1 + t))) ∧
    (∀ t c b : ℚ, criterionPasses "response_time" t c b = decide (c ≤ b * (1 + t))) ∧
    (∀ t c b : ℚ, criterionPasses "user_satisfaction" t c b = decide (b * (1 - t) ≤ c)) ∧
    (∀ name, name ≠ "error_rate" → name ≠ "response_time" → name ≠ "user_satisfaction" →
      ∀ t c b : ℚ, criterionPasses name t c b = decide (|c - b| ≤ t)) ∧
    evaluateCanaryPerformance cfgSingleCriterion canaryMetricsGood baselineMetrics0 0 =
      some evalProceed ∧
    evalProceed.confidence = 1 ∧
    evalProceed.decision = "proceed" ∧
    calculateNextTrafficPercentage cfgSingleCriterion.canary_traffic_percentage 5 = 10 := by
  refine ⟨fun t c b => rfl, fun t c b => rfl, fun t c b => rfl, ?_,
    evaluate_canaryMetricsGood, rfl, rfl, rfl⟩
  intro name h1 h2 h3 t c b
  simp [criterionPasses, h1, h2, h3]

/-- C6 witness: a criterion outside the three named ones (here
`throughput`) is compared with the absolute band. -/
theorem C6_witness_default_band :
    criterionPasses "throughput" 1 2 2 = decide (|(2 : ℚ) - 2| ≤ 1) :=
  (C6_criterion_directionality_and_scenario).2.2.2.1 "throughput"
    (by decide) (by decide) (by decide) 1 2 2

/-! ## Claim C5 -/

/-- The decision of an evaluation record is determined by its confidence
through the fixed 0.70 / 0.90 thresholds (lines 767-775). -/
theorem evaluate_decision_spec (config : CanaryConfiguration)
    (cm bm : List (String × ℚ)) (now : Nat) (ev : CanaryEvaluation)
    (h : evaluateCanaryPerformance config cm bm now = some ev) :
    ev.decision = if ev.confidence < 7/10 then "abort"
      else if 9/10 ≤ ev.confidence then "proceed" else "hold" := by
  cases hcs : config.success_criteria with
  | nil => simp [evaluateCanaryPerformance, hcs] at h
  | cons p rest =>
    simp only [evaluateCanaryPerformance, hcs, Option.some.injEq] at h
    subst h
    simp [ge_iff_le]

/-- C5: an evaluation cycle while the release is running aborts on
confidence below 0.70 (status `Aborted`, split canary 0 / baseline 100),
advances traffic on confidence at least 0.90, and holds (no traffic or
status change) in between. -/
theorem C5_decision_thresholds_and_effects
    (m : CanaryManagerState) (id : String) (cm bm : List (String × ℚ)) (now : Nat)
    (info : CanaryInfo) (ev : CanaryEvaluation) (m' : CanaryManagerState)
    (hInfo : alookup m.active_canaries id = some info)
    (hRun : info.status = .running)
    (hEval : evaluateCanaryPerformance info.config cm bm now = some ev)
    (hCycle : canaryCycle m id cm bm now = some m') :
    (ev.confidence < 7/10 → ev.decision = "abort" ∧
      (alookup m'.active_canaries id).map CanaryInfo.status = some CanaryStatus.aborted ∧
      alookup m'.router.routing_rules info.config.model_name =
        some [("canary", 0), ("baseline", 100)]) ∧
    (9/10 ≤ ev.confidence → ev.decision = "proceed" ∧
      (alookup m'.active_canaries id).map CanaryInfo.current_traffic_percentage =
        some (calculateNextTrafficPercentage info.config.canary_traffic_percentage
          info.current_traffic_percentage) ∧
      (alookup m'.active_canaries id).map CanaryInfo.status = some CanaryStatus.running) ∧
    (7/10 ≤ ev.confidence → ev.confidence < 9/10 → ev.decision = "hold" ∧
      m'.router = m.router ∧
      (alookup m'.active_canaries id).map CanaryInfo.current_traffic_percentage =
        some info.current_traffic_percentage ∧
      (alookup m'.active_canaries id).map CanaryInfo.status = some CanaryStatus.running) := by
  have hdec := evaluate_decision_spec info.config cm bm now ev hEval
  simp only [canaryCycle, hInfo, hEval] at hCycle
  refine ⟨?_, ?_, ?_⟩
  · intro hconf
    have hd : ev.decision = "abort" := by rw [hdec, if_pos hconf]
    rw [hd] at hCycle
    simp only [String.reduceEq, reduceIte] at hCycle
    simp only [abortCanaryRelease, alookup_aset_self, Option.some.injEq] at hCycle
    subst hCycle
    refine ⟨hd, ?_, ?_⟩
    · simp [alookup_aset_self]
    · exact alookup_updateTrafficSplit _ _ _
  · intro hconf
    have hnotabort : ¬(ev.confidence < 7/10) := not_lt.2 (le_trans (by norm_num) hconf)
    have hd : ev.decision = "proceed" := by rw [hdec, if_neg hnotabort, if_pos hconf]
    rw [hd] at hCycle
    simp only [String.reduceEq, reduceIte] at hCycle
    simp only [updateCanaryTraffic, alookup_aset_self, Option.some.injEq] at hCycle
    subst hCycle
    refine ⟨hd, ?_, ?_⟩
    · simp [alookup_aset_self]
    · simp [alookup_aset_self, hRun]
  · intro hconf1 hconf2
    have hd : ev.decision = "hold" := by
      rw [hdec, if_neg (not_lt.2 hconf1), if_neg (not_le.2 hconf2)]
    rw [hd] at hCycle
    simp only [String.reduceEq, reduceIte, Option.some.injEq] at hCycle
    subst hCycle
    refine ⟨hd, rfl, ?_, ?_⟩
    · simp [alookup_aset_self]
    · simp [alookup_aset_self, hRun]

/-- The failing cycle on the started single-criterion release, computed
end to end. -/
theorem canaryCycle_abort_run :
    canaryCycle startedCanary.2 startedCanary.1 canaryMetricsBad baselineMetrics0 4 =
      some abortedCanaryMgr := by
  have hInfo : alookup startedCanary.2.active_canaries startedCanary.1 =
      some startedInfo := rfl
  simp only [canaryCycle, hInfo, startedInfo]
  rw [evaluate_canaryMetricsBad]
  rfl

/-- C5 witness: the concrete failing cycle (confidence 0 < 0.70) ends
`Aborted` with the split reverted to canary 0 / baseline 100. -/
theorem C5_witness_abort_run :
    evalAbort.decision = "abort" ∧
    (alookup abortedCanaryMgr.active_canaries startedCanary.1).map CanaryInfo.status =
      some CanaryStatus.aborted ∧
    alookup abortedCanaryMgr.router.routing_rules startedInfo.config.model_name =
      some [("canary", 0), ("baseline", 100)] :=
  (C5_decision_thresholds_and_effects startedCanary.2 startedCanary.1 canaryMetricsBad
    baselineMetrics0 4 startedInfo evalAbort abortedCanaryMgr rfl rfl
    evaluate_canaryMetricsBad canaryCycle_abort_run).1 (by norm_num [evalAbort])

/-! ## Claim C8 -/

/-- The two slots are distinct. -/
theorem oppositeSlot_ne (s : DeploymentSlot) : oppositeSlot s ≠ s := by
  cases s <;> simp [oppositeSlot]

/-- C8 counterexample: with two `Inactive` deployments in the opposite
slot, `rollback_deployment` promotes the FIRST one in registry insertion
order — here `m-v1-green-1` (created at tick 1) — although
`m-v3-green-3` (created at tick 3) is the most recent inactive candidate,
contradicting the claimed "most recent" selection. -/
theorem C8_counterexample_oldest_selected :
    (rollbackDeployment bgTwoCandidates "m").1 =
      RollbackResult.success "m-v1-green-1" DeploymentSlot.green ∧
    greenNewer ∈ bgTwoCandidates.deployments ∧
    greenNewer.model_name = "m" ∧
    greenNewer.slot = DeploymentSlot.green ∧
    greenNewer.status = DeploymentStatus.inactive ∧
    greenOlder.created_at < greenNewer.created_at := by
  decide

/-- C8 amended: `rollback_deployment` fails with the no-active /
no-previous error results (leaving the state untouched) exactly as
claimed, and otherwise promotes the FIRST (earliest-registered, not the
most recent) `Inactive` deployment found in the opposite slot: it routes
100/0 back to that slot, marks the found deployment `Active` with 100%
traffic, marks the deployments of the formerly active slot `Inactive` with 0%,
and flips the pointer. -/
theorem C8_rollback_spec (s : BlueGreenState) (model : String) :
    (alookup s.active_slots model = none →
      rollbackDeployment s model = (.noActiveDeployment, s)) ∧
    (∀ cur, alookup s.active_slots model = some cur →
      findPreviousDeployment s.deployments model (oppositeSlot cur) = none →
      rollbackDeployment s model = (.noPreviousDeployment, s)) ∧
    (∀ cur prev, alookup s.active_slots model = some cur →
      findPreviousDeployment s.deployments model (oppositeSlot cur) = some prev →
      (rollbackDeployment s model).1 =
        RollbackResult.success prev.deployment_id (oppositeSlot cur) ∧
      alookup (rollbackDeployment s model).2.router.routing_rules model =
        some [((oppositeSlot cur).value, 100), (cur.value, 0)] ∧
      alookup (rollbackDeployment s model).2.active_slots model = some (oppositeSlot cur) ∧
      ({ prev with status := .active, traffic_percentage := 100 } : ModelDeployment) ∈
        (rollbackDeployment s model).2.deployments ∧
      (∀ d ∈ s.deployments, d.model_name = model → d.slot = cur →
        ({ d with status := .inactive, traffic_percentage := 0 } : ModelDeployment) ∈
          (rollbackDeployment s model).2.deployments)) := by
  refine ⟨?_, ?_, ?_⟩
  · intro h
    simp [rollbackDeployment, h]
  · intro cur h hfind
    simp [rollbackDeployment, h, hfind]
  · intro cur prev h hfind
    have hmem := List.mem_of_find?_eq_some hfind
    have hp := List.find?_some hfind
    simp only [decide_eq_true_eq] at hp
    obtain ⟨hpm, hps, hpst⟩ := hp
    simp only [rollbackDeployment, h, hfind, markSlotInactive]
    refine ⟨by trivial, alookup_updateTrafficSplit _ _ _, alookup_aset_self _ _ _, ?_, ?_⟩
    · have himg :
          (fun d : ModelDeployment =>
            if d.model_name = model ∧ d.slot = cur then
              { d with status := .inactive, traffic_percentage := 0 }
            else d)
          ((fun d : ModelDeployment =>
            if d.deployment_id = prev.deployment_id then
              { d with status := .active, traffic_percentage := 100 }
            else d) prev) =
          { prev with status := .active, traffic_percentage := 100 } := by
        have hne : ¬(prev.slot = cur) := by
          rw [hps]; exact oppositeSlot_ne cur
        simp [hne]
      rw [← himg]
      exact List.mem_map_of_mem _ (List.mem_map_of_mem _ hmem)
    · intro d hd hdm hds
      have himg :
          (fun d : ModelDeployment =>
            if d.model_name = model ∧ d.slot = cur then
              { d with status := .inactive, traffic_percentage := 0 }
            else d)
          ((fun d : ModelDeployment =>
            if d.deployment_id = prev.deployment_id then
              { d with status := .active, traffic_percentage := 100 }
            else d) d) =
          { d with status := .inactive, traffic_percentage := 0 } := by
        by_cases hid : d.deployment_id = prev.deployment_id <;> simp [hid, hdm, hds]
      rw [← himg]
      exact List.mem_map_of_mem _ (List.mem_map_of_mem _ hd)

/-- C8 witness: with no active slot registered for the service the call
fails with the no-active-deployment error and changes nothing. -/
theorem C8_witness_no_active :
    rollbackDeployment initialBG "m" = (RollbackResult.noActiveDeployment, initialBG) :=
  (C8_rollback_spec initialBG "m").1 rfl

/-! ## Claim C9 -/

/-- Folding the validation loop over rule results appends every result to
the per-check list and ands their verdicts into the overall flag. -/
theorem foldl_validateStep_ok (acc : ValidationResult) (rs : List CheckResult) :
    (List.foldl validateStep acc (rs.map CheckOutcome.ok)).checks = acc.checks ++ rs ∧
    (List.foldl validateStep acc (rs.map CheckOutcome.ok)).passed =
      (acc.passed && rs.all (fun r => r.passed)) := by
  induction rs generalizing acc with
  | nil => simp
  | cons r rest ih =>
    have step : (validateStep acc (.ok r)).checks = acc.checks ++ [r] ∧
        (validateStep acc (.ok r)).passed = (acc.passed && r.passed) := by
      cases hr : r.passed <;> simp [validateStep, hr]
    obtain ⟨ih1, ih2⟩ := ih (validateStep acc (.ok r))
    simp only [List.map, List.foldl, List.all_cons]
    rw [ih1, ih2, step.1, step.2]
    constructor
    · simp
    · rw [Bool.and_assoc]

/-- C9: in every `validate_deployment` run, a rule whose body raises
internally still contributes a (failed) check result to the ordered
per-check list of the report — the own except branch of the rule converts the exception —
the other checks all still run (the list always has the four entries in
registration order), and the aggregated `passed` flag is true exactly
when every per-check result passed. -/
theorem C9_per_check_isolation (e1 e2 e3 e4 : Option String) (samples : List ℚ) :
    (validateDeployment e1 e2 e3 e4 samples).checks =
      [validateEndpointConnectivity e1, validateModelResponse e2,
       validatePerformanceMetrics e3 samples, validateApiCompatibility e4] ∧
    (validateDeployment e1 e2 e3 e4 samples).checks.length = 4 ∧
    (∀ msg, e1 = some msg →
      (((validateDeployment e1 e2 e3 e4 samples).checks.getD 0 blankCheck).passed = false)) ∧
    (∀ msg, e2 = some msg →
      (((validateDeployment e1 e2 e3 e4 samples).checks.getD 1 blankCheck).passed = false)) ∧
    (∀ msg, e3 = some msg →
      (((validateDeployment e1 e2 e3 e4 samples).checks.getD 2 blankCheck).passed = false)) ∧
    (∀ msg, e4 = some msg →
      (((validateDeployment e1 e2 e3 e4 samples).checks.getD 3 blankCheck).passed = false)) ∧
    (validateDeployment e1 e2 e3 e4 samples).passed =
      (validateDeployment e1 e2 e3 e4 samples).checks.all (fun r => r.passed) := by
  obtain ⟨hch, hp⟩ := foldl_validateStep_ok {}
    [validateEndpointConnectivity e1, validateModelResponse e2,
     validatePerformanceMetrics e3 samples, validateApiCompatibility e4]
  have hch' : (validateDeployment e1 e2 e3 e4 samples).checks =
      [validateEndpointConnectivity e1, validateModelResponse e2,
       validatePerformanceMetrics e3 samples, validateApiCompatibility e4] := by
    simpa using hch
  have hp' : (validateDeployment e1 e2 e3 e4 samples).passed =
      ([validateEndpointConnectivity e1, validateModelResponse e2,
        validatePerformanceMetrics e3 samples, validateApiCompatibility e4].all
        (fun r => r.passed)) := by
    simpa using hp
  refine ⟨hch', by rw [hch']; simp, ?_, ?_, ?_, ?_, by rw [hp', hch']⟩
  · intro msg hm
    subst hm
    rw [hch']
    rfl
  · intro msg hm
    subst hm
    rw [hch']
    rfl
  · intro msg hm
    subst hm
    rw [hch']
    rfl
  · intro msg hm
    subst hm
    rw [hch']
    rfl

/-- C9 witness: an internal exception in the model-response rule yields a
failed second entry in the per-check results. -/
theorem C9_witness_model_response_exception :
    ((validateDeployment none (some "boom") none none
      [100, 100, 100, 100, 100]).checks.getD 1 blankCheck).passed = false :=
  (C9_per_check_isolation none (some "boom") none none
    [100, 100, 100, 100, 100]).2.2.2.1 "boom" rfl

/-! ## Claim C10 -/

/-- A variant selected by the cumulative scan is one of the labels of the
split. -/
theorem routeScan_mem (l : TrafficSplit) (cum rv : Int) (v : String)
    (h : routeScan l cum rv = some v) : v ∈ l.map Prod.fst := by
  induction l generalizing cum with
  | nil => simp [routeScan] at h
  | cons p rest ih =>
    obtain ⟨pv, pw⟩ := p
    simp only [routeScan] at h
    by_cases hle : rv ≤ cum + pw
    · rw [if_pos hle] at h
      injection h with h
      simp [h]
    · rw [if_neg hle] at h
      simp only [List.map_cons, List.mem_cons]
      exact Or.inr (ih (cum + pw) h)

/-- If the draw is within the total cumulative weight of a non-empty
split with non-negative weights, the scan selects some variant. -/
theorem routeScan_isSome (l : TrafficSplit) (cum rv : Int)
    (hw : ∀ p ∈ l, 0 ≤ p.2) (hne : l ≠ [])
    (hle : rv ≤ cum + (l.map Prod.snd).sum) :
    (routeScan l cum rv).isSome = true := by
  induction l generalizing cum with
  | nil => exact absurd rfl hne
  | cons p rest ih =>
    obtain ⟨pv, pw⟩ := p
    rw [List.map_cons, List.sum_cons] at hle
    by_cases hle1 : rv ≤ cum + pw
    · simp [routeScan, hle1]
    · have hrest : rest ≠ [] := by
        rintro rfl
        simp only [List.map_nil, List.sum_nil, Int.add_zero] at hle
        omega
      simp only [routeScan, if_neg hle1]
      refine ih (cum + pw) (fun q hq => hw q (List.mem_cons_of_mem _ hq)) hrest ?_
      omega

/-- If the draw exceeds the total cumulative weight, the scan exhausts
the split. -/
theorem routeScan_none (l : TrafficSplit) (cum rv : Int)
    (hw : ∀ p ∈ l, 0 ≤ p.2) (h : cum + (l.map Prod.snd).sum < rv) :
    routeScan l cum rv = none := by
  induction l generalizing cum with
  | nil => rfl
  | cons p rest ih =>
    obtain ⟨pv, pw⟩ := p
    rw [List.map_cons, List.sum_cons] at h
    have hsumr : 0 ≤ (rest.map Prod.snd).sum := by
      refine List.sum_nonneg ?_
      intro x hx
      obtain ⟨q, hq, rfl⟩ := List.mem_map.1 hx
      exact hw q (List.mem_cons_of_mem _ hq)
    have hgt : ¬(rv ≤ cum + pw) := by omega
    simp only [routeScan, if_neg hgt]
    refine ih (cum + pw) (fun q hq => hw q (List.mem_cons_of_mem _ hq)) ?_
    omega

/-- Replacing a counter by its successor raises the counter total by one
(the first binding of the key is the one both read and replaced). -/
theorem valsSum_aset_succ (cs : List (String × Nat)) (v : String) (c : Nat)
    (h : alookup cs v = some c) :
    ((aset cs v (c + 1)).map Prod.snd).sum = ((cs.map Prod.snd).sum) + 1 := by
  induction cs with
  | nil => simp [alookup] at h
  | cons q rest ih =>
    obtain ⟨k, w⟩ := q
    by_cases hk : k = v
    · subst hk
      rw [alookup_cons, if_pos rfl] at h
      injection h with h
      subst h
      simp [aset, List.map_cons, List.sum_cons]
      omega
    · rw [alookup_cons, if_neg hk] at h
      simp only [aset, if_neg hk, List.map_cons, List.sum_cons, ih h]
      omega

/-- C10: with a stored non-negative split summing to exactly 100, every
request (draw in 1..100) is routed to one of the labels of the split and
the counter of exactly that label is incremented by one, so the counter total
grows by one per routed call; with a split summing to less than 100, the
draw 100 falls through the scan and the fallback returns the first label
with no counter change at all. -/
theorem C10_route_request
    (r : TrafficRouter) (model : String) (first : String × Int) (rest : TrafficSplit)
    (counts : List (String × Nat)) (rv : Int)
    (hsplit : alookup r.routing_rules model = some (first :: rest))
    (hw : ∀ p ∈ first :: rest, 0 ≤ p.2)
    (hcounts : alookup r.request_counts model = some counts)
    (hcov : ∀ p ∈ first :: rest, (alookup counts p.1).isSome = true) :
    ((((first :: rest).map Prod.snd).sum = 100) → 1 ≤ rv → rv ≤ 100 →
      (routeRequest r model rv).isSome = true ∧
      (∀ v r', routeRequest r model rv = some (v, r') →
        v ∈ (first :: rest).map Prod.fst ∧
        r'.routing_rules = r.routing_rules ∧
        totalRequests r' model = totalRequests r model + 1 ∧
        alookup ((alookup r'.request_counts model).getD []) v =
          (alookup counts v).map (fun n => n + 1) ∧
        (∀ u, u ≠ v →
          alookup ((alookup r'.request_counts model).getD []) u = alookup counts u))) ∧
    ((((first :: rest).map Prod.snd).sum < 100) →
      routeRequest r model 100 = some (first.1, r)) := by
  constructor
  · intro hsum h1 h100
    have hscan : (routeScan (first :: rest) 0 rv).isSome = true := by
      refine routeScan_isSome _ 0 rv hw (by simp) ?_
      rw [hsum]
      omega
    obtain ⟨v, hv⟩ := Option.isSome_iff_exists.1 hscan
    have hvmem := routeScan_mem _ _ _ _ hv
    have hcv : (alookup counts v).isSome = true := by
      obtain ⟨p, hp, hpv⟩ := List.mem_map.1 hvmem
      rw [← hpv]
      exact hcov p hp
    obtain ⟨c, hc⟩ := Option.isSome_iff_exists.1 hcv
    have hroute : routeRequest r model rv =
        some (v, ⟨r.routing_rules, aset r.request_counts model (aset counts v (c + 1))⟩) := by
      simp only [routeRequest, hsplit, hv, hcounts, hc]
    refine ⟨by rw [hroute]; rfl, ?_⟩
    intro v' r' h'
    rw [hroute] at h'
    simp only [Option.some.injEq, Prod.mk.injEq] at h'
    obtain ⟨hv', hr'⟩ := h'
    subst hv'
    subst hr'
    refine ⟨hvmem, rfl, ?_, ?_, ?_⟩
    · simp only [totalRequests, alookup_aset_self, hcounts, Option.getD_some]
      exact valsSum_aset_succ counts v c hc
    · simp only [alookup_aset_self, hc, Option.getD_some, Option.map_some]
      rfl
    · intro u hu
      simp only [alookup_aset_self, Option.getD_some]
      exact alookup_aset_ne counts v u (c + 1) (Ne.symm hu)
  · intro hsum
    have hscan : routeScan (first :: rest) 0 100 = none := by
      refine routeScan_none _ 0 100 hw ?_
      omega
    simp only [routeRequest, hsplit, hscan]

/-- C10 witness: on the applied split `a:30 / b:70`, the draw 30 routes to
`a` and raises the counter total by one. -/
theorem C10_witness_route_and_count :
    totalRequests routerABAfterA "m" = totalRequests routerAB "m" + 1 :=
  (((C10_route_request routerAB "m" ("a", 30) [("b", 70)] [("a", 0), ("b", 0)] 30
      (by decide) (by decide) (by decide) (by decide)).1 (by decide) (by decide)
      (by decide)).2 "a" routerABAfterA (by decide)).2.2.1

/-! ## Claim C7 -/

/-- On a successful run with no active slot yet, the final registry is the
old one plus the new staging entry, with the new entry set `Active`. -/
theorem deploy_success_deployments_none
    (s : BlueGreenState) (model version : String) (ts : Nat) (metrics : Int → ℚ × ℚ)
    (halt : alookup s.active_slots model = none)
    (hShift : (gradualTrafficShift metrics model .green s.router).1 = true) :
    (deployNewVersion s model version ts true metrics).2.deployments =
      setStatusById (s.deployments ++ [mkStagingDeployment model version .green ts])
        (mkDeploymentId model version .green ts) .active := by
  simp only [deployNewVersion, completeBlueGreenSwitch, halt, Option.getD_none,
    oppositeSlot, hShift, if_true]

/-- On a successful run with an active slot, the final registry is the old
one plus the staging entry, the deployments of the active slot demoted, and the
new entry set `Active`. -/
theorem deploy_success_deployments_some
    (s : BlueGreenState) (model version : String) (ts : Nat) (metrics : Int → ℚ × ℚ)
    (old : DeploymentSlot)
    (halt : alookup s.active_slots model = some old)
    (hShift : (gradualTrafficShift metrics model (oppositeSlot old) s.router).1 = true) :
    (deployNewVersion s model version ts true metrics).2.deployments =
      setStatusById
        (markSlotInactive
          (s.deployments ++ [mkStagingDeployment model version (oppositeSlot old) ts])
          model old)
        (mkDeploymentId model version (oppositeSlot old) ts) .active := by
  simp only [deployNewVersion, completeBlueGreenSwitch, halt, Option.getD_some,
    hShift, if_true]

/-- A mapped list has no matches when the image of no element matches. -/
theorem countP_map_eq_zero {α β : Type} (f : α → β) (p : β → Bool) (l : List α)
    (h : ∀ a ∈ l, p (f a) = false) : (l.map f).countP p = 0 := by
  rw [List.countP_eq_zero]
  intro b hb
  obtain ⟨a, ha, rfl⟩ := List.mem_map.1 hb
  simp [h a ha]

/-- C7: a successful `deploy_new_version` (validation passed, every shift
step healthy) returns the success result and leaves exactly one `Active`
deployment of the service in the registry — the new one — while every
previously `Active` deployment of the service is now present as
`Inactive` with 0% traffic.  The hypotheses say the pre-state is one the
manager itself produces: `Active` entries only in the pointer's slot, and
the generated deployment id not already taken. -/
theorem C7_deploy_success_single_active
    (s : BlueGreenState) (model version : String) (ts : Nat) (metrics : Int → ℚ × ℚ)
    (hInv : ∀ d ∈ s.deployments, d.model_name = model → d.status = DeploymentStatus.active →
      alookup s.active_slots model = some d.slot)
    (hFresh : ∀ d ∈ s.deployments,
      d.deployment_id ≠ mkDeploymentId model version
        (oppositeSlot ((alookup s.active_slots model).getD .blue)) ts)
    (hShift : (gradualTrafficShift metrics model
      (oppositeSlot ((alookup s.active_slots model).getD .blue)) s.router).1 = true) :
    (deployNewVersion s model version ts true metrics).1 =
      DeployOutcome.success
        (mkDeploymentId model version
          (oppositeSlot ((alookup s.active_slots model).getD .blue)) ts)
        (oppositeSlot ((alookup s.active_slots model).getD .blue))
        (mkEndpoint model (oppositeSlot ((alookup s.active_slots model).getD .blue))) ∧
    ((deployNewVersion s model version ts true metrics).2.deployments.countP
      (fun d => decide (d.model_name = model ∧ d.status = DeploymentStatus.active))) = 1 ∧
    (∀ d ∈ s.deployments, d.model_name = model → d.status = DeploymentStatus.active →
      ({ d with status := .inactive, traffic_percentage := 0 } : ModelDeployment) ∈
        (deployNewVersion s model version ts true metrics).2.deployments) := by
  cases halt : alookup s.active_slots model with
  | none =>
    rw [halt] at hFresh hShift
    simp only [Option.getD_none, oppositeSlot] at hFresh hShift
    have hds := deploy_success_deployments_none s model version ts metrics halt hShift
    refine ⟨?_, ?_, ?_⟩
    · simp only [deployNewVersion, halt, Option.getD_none, oppositeSlot, hShift, if_true]
      simp [mkStagingDeployment]
    · rw [hds]
      simp only [setStatusById, List.map_append, List.countP_append]
      rw [countP_map_eq_zero _ _ s.deployments ?_]
      · simp [mkStagingDeployment]
      · intro d hd
        simp only [if_neg (hFresh d hd), decide_eq_false_iff_not]
        rintro ⟨hm, hact⟩
        exact absurd (hInv d hd hm hact) (by rw [halt]; simp)
    · intro d hd hm hact
      exact absurd (hInv d hd hm hact) (by rw [halt]; simp)
  | some old =>
    rw [halt] at hFresh hShift
    simp only [Option.getD_some] at hFresh hShift
    have hds := deploy_success_deployments_some s model version ts metrics old halt hShift
    have hslotne : oppositeSlot old ≠ old := oppositeSlot_ne old
    refine ⟨?_, ?_, ?_⟩
    · simp only [deployNewVersion, halt, Option.getD_some, hShift, if_true]
      simp [mkStagingDeployment]
    · rw [hds]
      simp only [setStatusById, markSlotInactive, List.map_append, List.map_map,
        List.countP_append]
      rw [countP_map_eq_zero _ _ s.deployments ?_]
      · simp only [List.map_cons, List.map_nil, Function.comp_apply]
        have hcond : ¬((mkStagingDeployment model version (oppositeSlot old) ts).model_name =
            model ∧ (mkStagingDeployment model version (oppositeSlot old) ts).slot = old) := by
          simp [mkStagingDeployment, hslotne]
        rw [if_neg hcond]
        simp [mkStagingDeployment]
      · intro d hd
        by_cases hcond : d.model_name = model ∧ d.slot = old
        · simp [Function.comp_apply, hcond, hFresh d hd]
        · simp only [Function.comp_apply, if_neg hcond]
          simp only [if_neg (hFresh d hd), decide_eq_false_iff_not]
          rintro ⟨hm, hact⟩
          have hthis := hInv d hd hm hact
          rw [halt] at hthis
          injection hthis with hthis
          exact hcond ⟨hm, hthis.symm⟩
    · intro d hd hm hact
      have hdslot := hInv d hd hm hact
      rw [halt] at hdslot
      injection hdslot with hdslot
      rw [hds]
      simp only [setStatusById, markSlotInactive, List.map_append, List.map_map]
      refine List.mem_append.2 (Or.inl ?_)
      have himg : ({ d with status := .inactive, traffic_percentage := 0 } : ModelDeployment) =
          ((fun x : ModelDeployment =>
            if x.deployment_id = mkDeploymentId model version (oppositeSlot old) ts then
              { x with status := DeploymentStatus.active } else x) ∘
           (fun x : ModelDeployment =>
            if x.model_name = model ∧ x.slot = old then
              { x with status := DeploymentStatus.inactive, traffic_percentage := 0 }
            else x)) d := by
        have hcond : d.model_name = model ∧ d.slot = old := ⟨hm, hdslot.symm⟩
        simp [Function.comp_apply, hcond, hFresh d hd]
      rw [himg]
      exact List.mem_map_of_mem _ hd

/-- C7 witness: redeploying `m` over the blue-active history leaves
exactly one active deployment (the new green one) and demotes the old
blue deployment to inactive with 0% traffic. -/
theorem C7_witness_redeploy_history :
    (deployNewVersion bgWithHistory "m" "v9" 7 true metricsGood).1 =
      DeployOutcome.success
        (mkDeploymentId "m" "v9"
          (oppositeSlot ((alookup bgWithHistory.active_slots "m").getD .blue)) 7)
        (oppositeSlot ((alookup bgWithHistory.active_slots "m").getD .blue))
        (mkEndpoint "m" (oppositeSlot ((alookup bgWithHistory.active_slots "m").getD .blue))) ∧
    ((deployNewVersion bgWithHistory "m" "v9" 7 true metricsGood).2.deployments.countP
      (fun d => decide (d.model_name = "m" ∧ d.status = DeploymentStatus.active))) = 1 ∧
    (∀ d ∈ bgWithHistory.deployments, d.model_name = "m" →
      d.status = DeploymentStatus.active →
      ({ d with status := .inactive, traffic_percentage := 0 } : ModelDeployment) ∈
        (deployNewVersion bgWithHistory "m" "v9" 7 true metricsGood).2.deployments) :=
  C7_deploy_success_single_active bgWithHistory "m" "v9" 7 metricsGood
    (by decide) (by decide)
    (gradualShift_metricsGood "m"
      (oppositeSlot ((alookup bgWithHistory.active_slots "m").getD .blue))
      bgWithHistory.router)

end DeploymentManager
